import Mathlib

/-!
Shallow embedding of the `ts-async-bootstrap` lifecycle controller
(the `Bootstrap` class, its `boot` / `bootAsync` / `exit` operations and
hook setters, together with the `bootstrap` and `bootstrapPromise`
facade functions).

Modelling conventions:
* A hook (`RunFunction`) is embedded by its single-invocation outcome
  `Except Err (Option Int)`: `Except.ok v` stands for a hook that returns
  normally (with an optional numeric exit-code hint `v`) or resolves its
  promise, and `Except.error e` stands for a hook that throws inside an
  async context or rejects its promise.  The error hook takes the caught
  error and is embedded as `Err → Except Err Unit`.
* JavaScript `undefined` / `null` / present option fields are embedded by
  `OptField`; the runtime value of the controller's `shouldExitOnError`
  field, which the constructor can set to `undefined`, is embedded by
  `JsBool` together with JavaScript truthiness.
* The pipeline is given denotational promise-chain semantics: one `boot`
  (or `exit`) invocation produces the list of observable events — hook
  invocations and requested process terminations — in the order the chain
  settles them.  `process.exit` is recorded as an `Event.procExit` at the
  point where the source calls (or, via `.finally`, schedules) it.
-/

namespace TsAsyncBootstrap

/-- A duck-typed JavaScript error object: a message together with the
optional numeric `code` field that the pipeline consults via
`e.code ?? 1`. -/
structure Err where
  msg : String
  code : Option Int
deriving Repr, DecidableEq

/-- Outcome of one invocation of a `RunFunction` hook: normal completion
(with an optional numeric exit-code hint) or a thrown / rejected error. -/
abbrev HookOut := Except Err (Option Int)

/-- A JavaScript option field: absent (`undefined`), explicit `null`, or a
present value. -/
inductive OptField (α : Type) where
  | undefined
  | null
  | val (a : α)
deriving Repr

/-- JavaScript spread-merge for one field: a field of the second record
overrides the default unless it is absent. -/
def OptField.orDefault {α : Type} (f d : OptField α) : OptField α :=
  match f with
  | .undefined => d
  | x => x

/-- The runtime value of the controller's `shouldExitOnError` field.  Its
TypeScript type is `boolean`, but the constructor's `!== null` guard lets
`undefined` through, so at runtime the field may hold `undefined`. -/
inductive JsBool where
  | undefined
  | val (b : Bool)
deriving Repr, DecidableEq

/-- JavaScript truthiness of the runtime `shouldExitOnError` value:
`undefined` is falsy. -/
def JsBool.truthy : JsBool → Bool
  | .undefined => false
  | .val b => b

/-- Reading an option field into the runtime boolean field: a present
boolean keeps its value; `undefined` is stored as `undefined`.  (The
constructor's guard excludes `null`; were it assigned it would be falsy
exactly like `undefined`, so it is mapped the same way.) -/
def OptField.toJsBool : OptField Bool → JsBool
  | .val b => .val b
  | _ => .undefined

/-- One observable event of the lifecycle: a hook invocation or a process
termination requested through `process.exit`. -/
inductive Event where
  | registerCall
  | runCall
  | onCompleteCall
  | onErrorCall (e : Err)
  | onFinallyCall
  | teardownCall
  | procExit (code : Int)
deriving Repr, DecidableEq

/-- `console.error` used as a hook: it reports the error and returns
normally. -/
def consoleError : Err → Except Err Unit := fun _ => Except.ok ()

/-- The `BootstrapOptions` record of the source: every field other than
`run` is optional, and `run` itself may be absent or `null` at runtime
(the `defaultOptions` record sets it to `null`). -/
structure BootstrapOptions where
  register : OptField HookOut
  run : OptField HookOut
  onComplete : OptField HookOut
  onFinally : OptField HookOut
  teardown : OptField HookOut
  shouldExitOnError : OptField Bool
  errorHandler : OptField (Err → Except Err Unit)

/-- The source's `defaultOptions`: `register` and `run` are `null`,
`onComplete` and `onFinally` are no-ops, `shouldExitOnError` is `true`,
`errorHandler` is `console.error`; the record has no `teardown` key. -/
def defaultOptions : BootstrapOptions :=
  { register := OptField.null
    run := OptField.null
    onComplete := OptField.val (Except.ok none)
    onFinally := OptField.val (Except.ok none)
    teardown := OptField.undefined
    shouldExitOnError := OptField.val true
    errorHandler := OptField.val consoleError }

/-- The spread merge `{ ...defaults, ...options }`: each field of
`options` overrides the default unless absent. -/
def mergeOptions (defaults options : BootstrapOptions) : BootstrapOptions :=
  { register := options.register.orDefault defaults.register
    run := options.run.orDefault defaults.run
    onComplete := options.onComplete.orDefault defaults.onComplete
    onFinally := options.onFinally.orDefault defaults.onFinally
    teardown := options.teardown.orDefault defaults.teardown
    shouldExitOnError := options.shouldExitOnError.orDefault defaults.shouldExitOnError
    errorHandler := options.errorHandler.orDefault defaults.errorHandler }

/-- The state of a `Bootstrap` controller instance: the six hooks (each
embedded by its invocation outcome), the runtime `shouldExitOnError`
value, and the `isBooted` flag. -/
structure Bootstrap where
  shouldExitOnError : JsBool
  register : HookOut
  teardown : HookOut
  onComplete : HookOut
  onError : Err → Except Err Unit
  onFinally : HookOut
  isBooted : Bool

/-- The class field initializers: `shouldExitOnError = true`, async no-op
hooks, `console.error` as the error hook, `isBooted = false`. -/
def Bootstrap.initial : Bootstrap :=
  { shouldExitOnError := JsBool.val true
    register := Except.ok none
    teardown := Except.ok none
    onComplete := Except.ok none
    onError := consoleError
    onFinally := Except.ok none
    isBooted := false }

/-- `setRegister`: throws `Cannot setRegister() after boot` if
`isBooted`, otherwise replaces the register hook. -/
def Bootstrap.setRegister (s : Bootstrap) (f : HookOut) : Except Err Bootstrap :=
  if s.isBooted then Except.error ⟨"Cannot setRegister() after boot", none⟩
  else Except.ok { s with register := f }

/-- `setTeardown`: throws `Cannot setTeardown() after boot` if
`isBooted`, otherwise replaces the teardown hook. -/
def Bootstrap.setTeardown (s : Bootstrap) (f : HookOut) : Except Err Bootstrap :=
  if s.isBooted then Except.error ⟨"Cannot setTeardown() after boot", none⟩
  else Except.ok { s with teardown := f }

/-- `setOnComplete`: throws `Cannot setOnComplete() after boot` if
`isBooted`, otherwise replaces the onComplete hook. -/
def Bootstrap.setOnComplete (s : Bootstrap) (f : HookOut) : Except Err Bootstrap :=
  if s.isBooted then Except.error ⟨"Cannot setOnComplete() after boot", none⟩
  else Except.ok { s with onComplete := f }

/-- `setOnError`: throws `Cannot setOnError() after boot` if
`isBooted`, otherwise replaces the error hook. -/
def Bootstrap.setOnError (s : Bootstrap) (g : Err → Except Err Unit) : Except Err Bootstrap :=
  if s.isBooted then Except.error ⟨"Cannot setOnError() after boot", none⟩
  else Except.ok { s with onError := g }

/-- `setOnFinally`: throws `Cannot setOnFinally() after boot` if
`isBooted`, otherwise replaces the onFinally hook. -/
def Bootstrap.setOnFinally (s : Bootstrap) (f : HookOut) : Except Err Bootstrap :=
  if s.isBooted then Except.error ⟨"Cannot setOnFinally() after boot", none⟩
  else Except.ok { s with onFinally := f }

/-- The `Bootstrap` constructor.  It binds the `exit` handler to process
signals (outside this embedding's boundary) and then applies each present
option through the corresponding setter; the setters never throw here
because `isBooted` is initialized `false`, so they are inlined as field
updates.  The guard on `shouldExitOnError` is the source's
`options.shouldExitOnError !== null`, which lets `undefined` through and
stores it into the boolean field. -/
def Bootstrap.construct (options : BootstrapOptions) : Bootstrap :=
  let s0 := Bootstrap.initial
  let s1 := match options.register with
    | OptField.val f => { s0 with register := f }
    | _ => s0
  let s2 := match options.onComplete with
    | OptField.val f => { s1 with onComplete := f }
    | _ => s1
  let s3 := match options.onFinally with
    | OptField.val f => { s2 with onFinally := f }
    | _ => s2
  let s4 := match options.teardown with
    | OptField.val f => { s3 with teardown := f }
    | _ => s3
  let s5 := match options.shouldExitOnError with
    | OptField.null => s4
    | f => { s4 with shouldExitOnError := f.toJsBool }
  match options.errorHandler with
  | OptField.val g => { s5 with onError := g }
  | _ => s5

/-- `exit(code)`: if the controller is not booted, `process.exit(code)`
terminates the process immediately — teardown is not invoked and nothing
after the call runs.  Otherwise the `isBooted` flag is cleared, the
teardown hook is invoked, and `.finally(() => process.exit(code))`
requests termination with the same `code` whether the teardown promise
fulfils or rejects. -/
def Bootstrap.exit (s : Bootstrap) (code : Int) : Bootstrap × List Event :=
  if s.isBooted then
    let s' := { s with isBooted := false }
    match s.teardown with
    | Except.ok _ => (s', [Event.teardownCall, Event.procExit code])
    | Except.error _ => (s', [Event.teardownCall, Event.procExit code])
  else
    (s, [Event.procExit code])

/-- The TypeError raised when `boot`'s `run` argument is `null` or
`undefined` and the chain evaluates `run()`. -/
def runTypeError : Err := ⟨"TypeError: run is not a function", none⟩

/-- Phases 1–3 of one `boot` chain: `register()` (always a function on the
class, so always invoked), then `run()` — a TypeError if the argument is
not a function — then `onComplete()`.  Returns the events of these phases
and the first failure, if any. -/
def Bootstrap.mainPhases (s : Bootstrap) (run : OptField HookOut) : List Event × Option Err :=
  match s.register with
  | Except.error e => ([Event.registerCall], some e)
  | Except.ok _ =>
    match run with
    | OptField.val f =>
      match f with
      | Except.error e => ([Event.registerCall, Event.runCall], some e)
      | Except.ok _ =>
        match s.onComplete with
        | Except.error e =>
          ([Event.registerCall, Event.runCall, Event.onCompleteCall], some e)
        | Except.ok _ =>
          ([Event.registerCall, Event.runCall, Event.onCompleteCall], none)
    | _ => ([Event.registerCall], some runTypeError)

/-- The `.catch` handler of the `boot` chain: await `onError(e)`; if the
error hook itself fails, the handler's promise rejects with that failure
and the exit check is never reached; otherwise, if `shouldExitOnError` is
truthy, call `exit(e.code ?? 1)`. -/
def Bootstrap.catchPhase (s : Bootstrap) (e : Err) : Bootstrap × List Event × Option Err :=
  match s.onError e with
  | Except.error e2 => (s, [Event.onErrorCall e], some e2)
  | Except.ok _ =>
    if s.shouldExitOnError.truthy then
      let (s', evs) := s.exit (e.code.getD 1)
      (s', Event.onErrorCall e :: evs, none)
    else
      (s, [Event.onErrorCall e], none)

/-- The `.finally` stage: `onFinally()` is invoked; if it fails the chain
rejects with that failure, otherwise the upstream settlement passes
through. -/
def finallySettle (onFinally : HookOut) (upstream : Option Err) : List Event × Option Err :=
  match onFinally with
  | Except.error ef => ([Event.onFinallyCall], some ef)
  | Except.ok _ => ([Event.onFinallyCall], upstream)

/-- `boot(run)`: set `isBooted`, then run the promise chain
`register → run → onComplete`, `.catch` (error hook and optional exit),
`.finally` (the onFinally hook).  Returns the final controller state, the
event trace in chain order, and the chain's own settlement (`some e` is an
unhandled rejection). -/
def Bootstrap.boot (s : Bootstrap) (run : OptField HookOut) : Bootstrap × List Event × Option Err :=
  let s1 := { s with isBooted := true }
  let m := Bootstrap.mainPhases s1 run
  let c := match m.2 with
    | none => (s1, ([] : List Event), (none : Option Err))
    | some e => Bootstrap.catchPhase s1 e
  let f := finallySettle c.1.onFinally c.2.2
  (c.1, m.1 ++ c.2.1 ++ f.1, f.2)

/-- Settlement of the promise returned by `bootAsync` /
`bootstrapPromise`: a promise settles once, with whichever of `accept`
and `reject` is called first. -/
inductive Settle where
  | resolved
  | rejected (e : Err)
  | pending
deriving Repr, DecidableEq

/-- First settlement of the `bootAsync` promise, read off the boot trace:
the `run` hook is `accept`, the error hook is `reject`. -/
def firstSettle : List Event → Settle
  | [] => Settle.pending
  | Event.runCall :: _ => Settle.resolved
  | Event.onErrorCall e :: _ => Settle.rejected e
  | _ :: rest => firstSettle rest

/-- `bootAsync()`: set `shouldExitOnError = false`, install `reject` as
the error hook (if that setter throws, the executor's exception rejects
the returned promise), and boot with `accept` as the run phase.  The
returned promise settles with whichever of `accept` / `reject` the
pipeline reaches first. -/
def Bootstrap.bootAsync (s : Bootstrap) : Bootstrap × List Event × Settle :=
  let s1 := { s with shouldExitOnError := JsBool.val false }
  match s1.setOnError (fun _ => Except.ok ()) with
  | Except.error e => (s1, [], Settle.rejected e)
  | Except.ok s2 =>
    let r := s2.boot (OptField.val (Except.ok none))
    (r.1, r.2.1, firstSettle r.2.1)

/-- The `bootstrap(options)` facade: construct a controller from the
options merged over `defaultOptions`, then `boot` with the caller's
(unmerged) `run` field.  The function itself never throws; it returns the
controller together with the boot trace and the chain's settlement. -/
def bootstrap (options : BootstrapOptions) : Bootstrap × List Event × Option Err :=
  let b := Bootstrap.construct (mergeOptions defaultOptions options)
  b.boot options.run

/-- The `bootstrapPromise(register)` facade: construct a controller with
the given register hook and a no-op run option (the constructor ignores
the `run` field), then delegate to `bootAsync`. -/
def bootstrapPromise (register : HookOut) : List Event × Settle :=
  let b := Bootstrap.construct
    { register := OptField.val register
      run := OptField.val (Except.ok none)
      onComplete := OptField.undefined
      onFinally := OptField.undefined
      teardown := OptField.undefined
      shouldExitOnError := OptField.undefined
      errorHandler := OptField.undefined }
  let r := b.bootAsync
  (r.2.1, r.2.2)

/-- A sequence of `exit` invocations threaded through the controller
state, as triggered by repeated signals / exit notifications. -/
def Bootstrap.exitSeq (s : Bootstrap) : List Int → Bootstrap × List Event
  | [] => (s, [])
  | c :: cs =>
    let r1 := s.exit c
    let r2 := Bootstrap.exitSeq r1.1 cs
    (r2.1, r1.2 ++ r2.2)

/-- Number of teardown invocations in a trace. -/
def countTeardown : List Event → Nat
  | [] => 0
  | Event.teardownCall :: rest => countTeardown rest + 1
  | _ :: rest => countTeardown rest

/-- Number of onFinally invocations in a trace. -/
def countOnFinally : List Event → Nat
  | [] => 0
  | Event.onFinallyCall :: rest => countOnFinally rest + 1
  | _ :: rest => countOnFinally rest

/-- An options record whose `run` field is `null` (the shape produced by
relying on `defaultOptions` for the entrypoint), with a succeeding
register hook. -/
def optsNoRun : BootstrapOptions :=
  { register := OptField.val (Except.ok none)
    run := OptField.null
    onComplete := OptField.undefined
    onFinally := OptField.undefined
    teardown := OptField.undefined
    shouldExitOnError := OptField.undefined
    errorHandler := OptField.undefined }

/-- A controller whose register hook fails with an error carrying the
numeric code `0`. -/
def sCode0 : Bootstrap :=
  { Bootstrap.initial with register := Except.error ⟨"boom", some 0⟩ }

/-- An options record with every field absent. -/
def optsAllAbsent : BootstrapOptions :=
  { register := OptField.undefined
    run := OptField.undefined
    onComplete := OptField.undefined
    onFinally := OptField.undefined
    teardown := OptField.undefined
    shouldExitOnError := OptField.undefined
    errorHandler := OptField.undefined }

theorem countTeardown_append (a b : List Event) :
    countTeardown (a ++ b) = countTeardown a + countTeardown b := by
  induction a with
  | nil => simp [countTeardown]
  | cons x t ih => cases x <;> simp [countTeardown, ih, Nat.add_right_comm]

theorem exitSeq_unbooted (s : Bootstrap) (cs : List Int) (h : s.isBooted = false) :
    (Bootstrap.exitSeq s cs).1 = s ∧ countTeardown (Bootstrap.exitSeq s cs).2 = 0 := by
  induction cs generalizing s with
  | nil => exact ⟨rfl, rfl⟩
  | cons c cs ih =>
    simp only [Bootstrap.exitSeq, Bootstrap.exit, h, if_false, Bool.false_eq_true]
    obtain ⟨h1, h2⟩ := ih s h
    exact ⟨h1, by simpa [countTeardown_append, countTeardown] using h2⟩

theorem mainPhases_head (s : Bootstrap) (run : OptField HookOut) :
    ∃ rest, (Bootstrap.mainPhases s run).1 = Event.registerCall :: rest := by
  obtain ⟨see, reg, td, onC, onE, onF, ib⟩ := s
  rcases reg with e | v
  · exact ⟨_, rfl⟩
  · rcases run with _ | _ | f
    · exact ⟨_, rfl⟩
    · exact ⟨_, rfl⟩
    · rcases f with e | w
      · exact ⟨_, rfl⟩
      · rcases onC with e | w2 <;> exact ⟨_, rfl⟩

theorem boot_head (s : Bootstrap) (run : OptField HookOut) :
    (s.boot run).2.1.head? = some Event.registerCall := by
  obtain ⟨rest, hrest⟩ := mainPhases_head { s with isBooted := true } run
  simp only [Bootstrap.boot]
  rw [hrest]
  simp

/-- C1: for every hook configuration, if the register phase fails during a
boot then `run` and `onComplete` are never invoked, the error hook is
invoked with the register failure and the onFinally hook still runs; the
register phase is always the first to settle, and when it succeeds the run
phase is invoked immediately after it (so only after register's outcome
has settled). -/
theorem c1_register_gates_run (s : Bootstrap) (run : OptField HookOut) :
    (∀ e : Err, s.register = Except.error e →
      Event.runCall ∉ (s.boot run).2.1 ∧
      Event.onCompleteCall ∉ (s.boot run).2.1 ∧
      Event.onErrorCall e ∈ (s.boot run).2.1 ∧
      Event.onFinallyCall ∈ (s.boot run).2.1) ∧
    (s.boot run).2.1.head? = some Event.registerCall ∧
    (∀ (v : Option Int) (f : HookOut), s.register = Except.ok v → run = OptField.val f →
      ∃ rest, (s.boot run).2.1 = Event.registerCall :: Event.runCall :: rest) := by
  refine ⟨?_, boot_head s run, ?_⟩
  · obtain ⟨see, reg, td, onC, onE, onF, ib⟩ := s
    intro e h
    rcases reg with e' | v
    · have he : e' = e := by injection h
      subst he
      rcases hoe : onE e' with e2 | u <;>
        simp only [Bootstrap.boot, Bootstrap.mainPhases, Bootstrap.catchPhase, Bootstrap.exit,
          finallySettle, JsBool.truthy, hoe] <;>
        rcases see with _ | b <;> (try cases b) <;>
        rcases td with te | tv <;>
        rcases onF with fe | fv <;>
        simp
    · simp at h
  · obtain ⟨see, reg, td, onC, onE, onF, ib⟩ := s
    intro v f h1 h2
    rcases reg with e' | v'
    · simp at h1
    · subst h2
      rcases f with fe | fv
      · rcases hoe : onE fe with e2 | u <;>
          simp only [Bootstrap.boot, Bootstrap.mainPhases, Bootstrap.catchPhase, Bootstrap.exit,
            finallySettle, JsBool.truthy, hoe] <;>
          rcases see with _ | b <;> (try cases b) <;>
          rcases td with te | tv <;>
          rcases onF with fe2 | fv2 <;>
          exact ⟨_, rfl⟩
      · rcases onC with ce | cv
        · rcases hoe : onE ce with e2 | u <;>
            simp only [Bootstrap.boot, Bootstrap.mainPhases, Bootstrap.catchPhase, Bootstrap.exit,
              finallySettle, JsBool.truthy, hoe] <;>
            rcases see with _ | b <;> (try cases b) <;>
            rcases td with te | tv <;>
            rcases onF with fe2 | fv2 <;>
            exact ⟨_, rfl⟩
        · rcases onF with fe2 | fv2 <;> exact ⟨_, rfl⟩

theorem c1_register_gates_run_witness :
    Event.runCall ∉
      (({ Bootstrap.initial with register := Except.error ⟨"boom", none⟩ } : Bootstrap).boot
        (OptField.val (Except.ok none))).2.1 ∧
    Event.onErrorCall ⟨"boom", none⟩ ∈
      (({ Bootstrap.initial with register := Except.error ⟨"boom", none⟩ } : Bootstrap).boot
        (OptField.val (Except.ok none))).2.1 := by
  have h := c1_register_gates_run
    { Bootstrap.initial with register := Except.error ⟨"boom", none⟩ }
    (OptField.val (Except.ok none))
  exact ⟨(h.1 ⟨"boom", none⟩ rfl).1, (h.1 ⟨"boom", none⟩ rfl).2.2.1⟩

/-- C2: for every hook configuration and every single `boot` call, the
onFinally hook is invoked exactly once, and it is the last event of the
boot chain — it runs only after the success or failure path has
settled. -/
theorem c2_onFinally_exactly_once (s : Bootstrap) (run : OptField HookOut) :
    countOnFinally (s.boot run).2.1 = 1 ∧
    (s.boot run).2.1.getLast? = some Event.onFinallyCall := by
  obtain ⟨see, reg, td, onC, onE, onF, ib⟩ := s
  simp only [Bootstrap.boot, Bootstrap.mainPhases, Bootstrap.catchPhase, Bootstrap.exit,
    finallySettle, JsBool.truthy]
  rcases reg with e | v
  · rcases h : onE e with e2 | u <;> simp only [h] <;>
      rcases see with _ | b <;> (try cases b) <;>
      rcases td with te | tv <;>
      rcases onF with fe | fv <;>
      simp [countOnFinally]
  · rcases run with _ | _ | f
    · rcases h : onE runTypeError with e2 | u <;> simp only [h] <;>
        rcases see with _ | b <;> (try cases b) <;>
        rcases td with te | tv <;>
        rcases onF with fe | fv <;>
        simp [countOnFinally]
    · rcases h : onE runTypeError with e2 | u <;> simp only [h] <;>
        rcases see with _ | b <;> (try cases b) <;>
        rcases td with te | tv <;>
        rcases onF with fe | fv <;>
        simp [countOnFinally]
    · rcases f with e | w
      · rcases h : onE e with e2 | u <;> simp only [h] <;>
          rcases see with _ | b <;> (try cases b) <;>
          rcases td with te | tv <;>
          rcases onF with fe | fv <;>
          simp [countOnFinally]
      · rcases onC with e | w2
        · rcases h : onE e with e2 | u <;> simp only [h] <;>
            rcases see with _ | b <;> (try cases b) <;>
            rcases td with te | tv <;>
            rcases onF with fe | fv <;>
            simp [countOnFinally]
        · rcases onF with fe | fv <;> simp [countOnFinally]

/-- C3: `exit` with the controller not booted terminates immediately with
the given code and without invoking teardown; `exit` on a booted
controller first clears `isBooted` and invokes teardown; and any sequence
of `exit` invocations triggers teardown at most once. -/
theorem c3_exit_reentrancy (s : Bootstrap) (c : Int) (cs : List Int) :
    (s.isBooted = false → s.exit c = (s, [Event.procExit c])) ∧
    (s.isBooted = true →
      (s.exit c).1.isBooted = false ∧
      (s.exit c).2 = [Event.teardownCall, Event.procExit c]) ∧
    countTeardown (Bootstrap.exitSeq s cs).2 ≤ 1 := by
  refine ⟨?_, ?_, ?_⟩
  · intro h
    simp [Bootstrap.exit, h]
  · intro h
    rcases htd : s.teardown with e | v <;> simp [Bootstrap.exit, h, htd]
  · rcases hb : s.isBooted
    · exact (exitSeq_unbooted s cs hb).2.le.trans (by norm_num)
    · rcases cs with _ | ⟨c0, cs⟩
      · simp [Bootstrap.exitSeq, countTeardown]
      · have hexit : (s.exit c0).1.isBooted = false ∧
            countTeardown (s.exit c0).2 = 1 := by
          rcases htd : s.teardown with e | v <;> simp [Bootstrap.exit, hb, htd, countTeardown]
        obtain ⟨hrest1, hrest2⟩ := exitSeq_unbooted (s.exit c0).1 cs hexit.1
        simp only [Bootstrap.exitSeq, countTeardown_append, hrest2, hexit.2]
        omega

theorem c3_exit_reentrancy_witness :
    (({ Bootstrap.initial with isBooted := true } : Bootstrap).exit 0).1.isBooted = false ∧
    countTeardown
      (Bootstrap.exitSeq ({ Bootstrap.initial with isBooted := true } : Bootstrap) [5, 7]).2 ≤ 1 ∧
    Bootstrap.initial.exit 4 = (Bootstrap.initial, [Event.procExit 4]) := by
  have h1 := c3_exit_reentrancy ({ Bootstrap.initial with isBooted := true } : Bootstrap) 0 [5, 7]
  have h2 := c3_exit_reentrancy Bootstrap.initial 4 []
  exact ⟨(h1.2.1 rfl).1, h1.2.2, h2.1 rfl⟩

/-- C4: each of the five hook setters throws its configuration error
synchronously when the controller is already booted (leaving the caller's
state untouched), and replaces exactly the corresponding hook when it is
not. -/
theorem c4_setters_guarded (s : Bootstrap) (f : HookOut) (g : Err → Except Err Unit) :
    (s.isBooted = true →
      s.setRegister f = Except.error ⟨"Cannot setRegister() after boot", none⟩ ∧
      s.setTeardown f = Except.error ⟨"Cannot setTeardown() after boot", none⟩ ∧
      s.setOnComplete f = Except.error ⟨"Cannot setOnComplete() after boot", none⟩ ∧
      s.setOnError g = Except.error ⟨"Cannot setOnError() after boot", none⟩ ∧
      s.setOnFinally f = Except.error ⟨"Cannot setOnFinally() after boot", none⟩) ∧
    (s.isBooted = false →
      s.setRegister f = Except.ok { s with register := f } ∧
      s.setTeardown f = Except.ok { s with teardown := f } ∧
      s.setOnComplete f = Except.ok { s with onComplete := f } ∧
      s.setOnError g = Except.ok { s with onError := g } ∧
      s.setOnFinally f = Except.ok { s with onFinally := f }) := by
  constructor <;> intro h <;>
    simp [Bootstrap.setRegister, Bootstrap.setTeardown, Bootstrap.setOnComplete,
      Bootstrap.setOnError, Bootstrap.setOnFinally, h]

theorem c4_setters_guarded_witness :
    Bootstrap.setRegister { Bootstrap.initial with isBooted := true } (Except.ok none) =
      Except.error ⟨"Cannot setRegister() after boot", none⟩ ∧
    Bootstrap.setRegister Bootstrap.initial (Except.ok (some 2)) =
      Except.ok { Bootstrap.initial with register := Except.ok (some 2) } := by
  have h1 := c4_setters_guarded ({ Bootstrap.initial with isBooted := true } : Bootstrap)
    (Except.ok none) consoleError
  have h2 := c4_setters_guarded Bootstrap.initial (Except.ok (some 2)) consoleError
  exact ⟨(h1.1 rfl).1, (h2.2 rfl).1⟩

theorem mainPhases_isBooted (s : Bootstrap) (b : Bool) (run : OptField HookOut) :
    Bootstrap.mainPhases { s with isBooted := b } run = Bootstrap.mainPhases s run := rfl

theorem boot_catch_decomp (s : Bootstrap) (run : OptField HookOut) (e : Err)
    (hm : (Bootstrap.mainPhases s run).2 = some e) :
    (s.boot run).2.1 =
      (Bootstrap.mainPhases s run).1 ++
        (Bootstrap.catchPhase { s with isBooted := true } e).2.1 ++ [Event.onFinallyCall] := by
  simp only [Bootstrap.boot, mainPhases_isBooted, hm]
  rcases hf : (Bootstrap.catchPhase { s with isBooted := true } e).1.onFinally with fe | fv <;>
    simp [finallySettle, hf]

theorem catchPhase_events (s : Bootstrap) (e : Err)
    (he : s.onError e = Except.ok ()) (hb : s.isBooted = true) :
    (s.shouldExitOnError.truthy = true →
      (s.catchPhase e).2.1 =
        [Event.onErrorCall e, Event.teardownCall, Event.procExit (e.code.getD 1)]) ∧
    (s.shouldExitOnError.truthy = false →
      (s.catchPhase e).2.1 = [Event.onErrorCall e]) := by
  constructor <;> intro ht <;> rcases htd : s.teardown with e2 | v <;>
    simp [Bootstrap.catchPhase, he, ht, Bootstrap.exit, hb, htd]

theorem mainPhases_no_procExit (s : Bootstrap) (run : OptField HookOut) (c : Int) :
    Event.procExit c ∉ (Bootstrap.mainPhases s run).1 := by
  obtain ⟨see, reg, td, onC, onE, onF, ib⟩ := s
  rcases reg with e | v
  · simp [Bootstrap.mainPhases]
  · rcases run with _ | _ | f
    · simp [Bootstrap.mainPhases]
    · simp [Bootstrap.mainPhases]
    · rcases f with e | w
      · simp [Bootstrap.mainPhases]
      · rcases onC with e | w2 <;> simp [Bootstrap.mainPhases]

theorem boot_run_missing (s : Bootstrap) (run : OptField HookOut)
    (h : run = OptField.null ∨ run = OptField.undefined) :
    Event.runCall ∉ (s.boot run).2.1 ∧
    (∃ e, Event.onErrorCall e ∈ (s.boot run).2.1) ∧
    Event.onFinallyCall ∈ (s.boot run).2.1 := by
  obtain ⟨see, reg, td, onC, onE, onF, ib⟩ := s
  rcases h with rfl | rfl
  · rcases reg with e | v
    · rcases hoe : onE e with e2 | u <;>
        simp only [Bootstrap.boot, Bootstrap.mainPhases, Bootstrap.catchPhase, Bootstrap.exit,
          finallySettle, JsBool.truthy, hoe] <;>
        rcases see with _ | b <;> (try cases b) <;>
        rcases td with te | tv <;>
        rcases onF with fe | fv <;>
        exact ⟨by simp, ⟨e, by simp⟩, by simp⟩
    · rcases hoe : onE runTypeError with e2 | u <;>
        simp only [Bootstrap.boot, Bootstrap.mainPhases, Bootstrap.catchPhase, Bootstrap.exit,
          finallySettle, JsBool.truthy, hoe] <;>
        rcases see with _ | b <;> (try cases b) <;>
        rcases td with te | tv <;>
        rcases onF with fe | fv <;>
        exact ⟨by simp, ⟨runTypeError, by simp⟩, by simp⟩
  · rcases reg with e | v
    · rcases hoe : onE e with e2 | u <;>
        simp only [Bootstrap.boot, Bootstrap.mainPhases, Bootstrap.catchPhase, Bootstrap.exit,
          finallySettle, JsBool.truthy, hoe] <;>
        rcases see with _ | b <;> (try cases b) <;>
        rcases td with te | tv <;>
        rcases onF with fe | fv <;>
        exact ⟨by simp, ⟨e, by simp⟩, by simp⟩
    · rcases hoe : onE runTypeError with e2 | u <;>
        simp only [Bootstrap.boot, Bootstrap.mainPhases, Bootstrap.catchPhase, Bootstrap.exit,
          finallySettle, JsBool.truthy, hoe] <;>
        rcases see with _ | b <;> (try cases b) <;>
        rcases td with te | tv <;>
        rcases onF with fe | fv <;>
        exact ⟨by simp, ⟨runTypeError, by simp⟩, by simp⟩

/-- C5 counterexample: invoking `bootstrap` with an options record whose
`run` field is `null` does not fail synchronously: the function returns
normally and the boot chain executes — `register` runs first, the
TypeError from invoking the absent `run` is routed to the error hook
asynchronously, and with the default `shouldExitOnError` the process is
terminated with code 1. -/
theorem c5_counterexample :
    (bootstrap optsNoRun).2.1 =
      [Event.registerCall, Event.onErrorCall runTypeError, Event.teardownCall,
       Event.procExit 1, Event.onFinallyCall] := rfl

/-- C5 amended: invoking `bootstrap` with `run` absent (`null` or
`undefined`) raises no synchronous configuration error; the register
phase is still invoked first, the run phase is never invoked, and a
failure reaches the error hook asynchronously, after which the onFinally
hook still runs. -/
theorem c5_run_absent_async (options : BootstrapOptions)
    (h : options.run = OptField.null ∨ options.run = OptField.undefined) :
    (bootstrap options).2.1.head? = some Event.registerCall ∧
    Event.runCall ∉ (bootstrap options).2.1 ∧
    (∃ e, Event.onErrorCall e ∈ (bootstrap options).2.1) ∧
    Event.onFinallyCall ∈ (bootstrap options).2.1 := by
  have hb := boot_run_missing (Bootstrap.construct (mergeOptions defaultOptions options))
    options.run h
  have hh := boot_head (Bootstrap.construct (mergeOptions defaultOptions options)) options.run
  exact ⟨hh, hb.1, hb.2.1, hb.2.2⟩

theorem c5_run_absent_async_witness :
    Event.runCall ∉ (bootstrap optsNoRun).2.1 ∧
    Event.onFinallyCall ∈ (bootstrap optsNoRun).2.1 := by
  have h := c5_run_absent_async optsNoRun (Or.inl rfl)
  exact ⟨h.2.1, h.2.2.2⟩

/-- C6: for every failure raised in register, run, or onComplete, the
pipeline invokes the error hook with that failure and awaits it first;
then, exactly when `shouldExitOnError` is truthy, it calls `exit` with
the error's numeric `code` field when present and 1 otherwise (so the
teardown and process-termination events follow the error hook, and are
absent otherwise). -/
theorem c6_error_path (s : Bootstrap) (run : OptField HookOut) (e : Err)
    (hm : (Bootstrap.mainPhases s run).2 = some e)
    (he : s.onError e = Except.ok ()) :
    (s.shouldExitOnError.truthy = true →
      (s.boot run).2.1 =
        (Bootstrap.mainPhases s run).1 ++
          [Event.onErrorCall e, Event.teardownCall, Event.procExit (e.code.getD 1),
           Event.onFinallyCall]) ∧
    (s.shouldExitOnError.truthy = false →
      (s.boot run).2.1 =
        (Bootstrap.mainPhases s run).1 ++ [Event.onErrorCall e, Event.onFinallyCall]) := by
  have hd := boot_catch_decomp s run e hm
  have hc := catchPhase_events { s with isBooted := true } e he rfl
  constructor <;> intro ht
  · rw [hd, hc.1 ht]
    simp
  · rw [hd, hc.2 ht]
    simp

theorem c6_error_path_witness :
    (Bootstrap.initial.boot (OptField.val (Except.error ⟨"crash", some 7⟩))).2.1 =
      [Event.registerCall, Event.runCall, Event.onErrorCall ⟨"crash", some 7⟩,
       Event.teardownCall, Event.procExit 7, Event.onFinallyCall] := by
  have h := c6_error_path Bootstrap.initial (OptField.val (Except.error ⟨"crash", some 7⟩))
    ⟨"crash", some 7⟩ rfl rfl
  exact h.1 rfl

/-- C7: `exit(c)` on a booted controller invokes teardown and then
terminates the process with exactly `c`; the teardown hook's success or
failure (the theorem holds for every teardown behavior) changes neither
the exit code nor the fact of termination, and the boot flag is
cleared. -/
theorem c7_exit_code_preserved (s : Bootstrap) (c : Int) (h : s.isBooted = true) :
    (s.exit c).2 = [Event.teardownCall, Event.procExit c] ∧
    (s.exit c).1 = { s with isBooted := false } := by
  rcases htd : s.teardown with e | v <;> simp [Bootstrap.exit, h, htd]

theorem c7_exit_code_preserved_witness :
    (({ Bootstrap.initial with
        isBooted := true
        teardown := Except.error ⟨"teardown boom", some 9⟩ } : Bootstrap).exit 3).2 =
      [Event.teardownCall, Event.procExit 3] :=
  (c7_exit_code_preserved
    { Bootstrap.initial with
      isBooted := true
      teardown := Except.error ⟨"teardown boom", some 9⟩ } 3 rfl).1

/-- C8 counterexample: with `shouldExitOnError` true (the default), a
register failure whose error carries the numeric code `0` terminates the
process with exit code `0` — not a non-zero code: `e.code ?? 1` passes a
carried `0` through. -/
theorem c8_counterexample :
    (sCode0.boot (OptField.val (Except.ok none))).2.1 =
      [Event.registerCall, Event.onErrorCall ⟨"boom", some 0⟩, Event.teardownCall,
       Event.procExit 0, Event.onFinallyCall] ∧
    Event.procExit 0 ∈ (sCode0.boot (OptField.val (Except.ok none))).2.1 :=
  ⟨rfl, by decide⟩

/-- C8 amended: when `shouldExitOnError` is truthy, every failure of the
register/run/onComplete phases terminates the process with the error's
carried code when present (which may be zero) and 1 otherwise; when it is
falsy, the failure is reported through the error hook and the pipeline
requests no process termination. -/
theorem c8_exit_code_derivation (s : Bootstrap) (run : OptField HookOut) (e : Err)
    (hm : (Bootstrap.mainPhases s run).2 = some e)
    (he : s.onError e = Except.ok ()) :
    (s.shouldExitOnError.truthy = true →
      Event.procExit (e.code.getD 1) ∈ (s.boot run).2.1) ∧
    (s.shouldExitOnError.truthy = false →
      Event.onErrorCall e ∈ (s.boot run).2.1 ∧
      ∀ c : Int, Event.procExit c ∉ (s.boot run).2.1) := by
  have hd := boot_catch_decomp s run e hm
  have hc := catchPhase_events { s with isBooted := true } e he rfl
  constructor <;> intro ht
  · rw [hd, hc.1 ht]
    simp
  · rw [hd, hc.2 ht]
    refine ⟨by simp, ?_⟩
    intro c
    simp [mainPhases_no_procExit s run c]

theorem c8_exit_code_derivation_witness :
    Event.procExit 0 ∈ (sCode0.boot (OptField.val (Except.ok none))).2.1 ∧
    Event.procExit 1 ∉
      (({ sCode0 with shouldExitOnError := JsBool.val false } : Bootstrap).boot
        (OptField.val (Except.ok none))).2.1 := by
  have h1 := c8_exit_code_derivation sCode0 (OptField.val (Except.ok none))
    ⟨"boom", some 0⟩ rfl rfl
  have h2 := c8_exit_code_derivation ({ sCode0 with shouldExitOnError := JsBool.val false })
    (OptField.val (Except.ok none)) ⟨"boom", some 0⟩ rfl rfl
  exact ⟨h1.1 rfl, (h2.2 rfl).2 1⟩

/-- C9: `bootstrapPromise(r)` returns an awaitable that resolves (with no
value) when the register hook succeeds and the pipeline reaches the run
phase, and rejects with the original register failure when it fails; in
the failure case the trace contains no process termination, because the
facade disables exit-on-error. -/
theorem c9_bootstrapPromise_settlement (r : HookOut) :
    (∀ v : Option Int, r = Except.ok v → (bootstrapPromise r).2 = Settle.resolved) ∧
    (∀ e : Err, r = Except.error e →
      (bootstrapPromise r).2 = Settle.rejected e ∧
      ∀ c : Int, Event.procExit c ∉ (bootstrapPromise r).1) := by
  constructor
  · rintro v rfl
    rfl
  · rintro e rfl
    refine ⟨rfl, ?_⟩
    intro c
    show Event.procExit c ∉ [Event.registerCall, Event.onErrorCall e, Event.onFinallyCall]
    simp

theorem c9_bootstrapPromise_settlement_witness :
    (bootstrapPromise (Except.ok none)).2 = Settle.resolved ∧
    (bootstrapPromise (Except.error ⟨"boom", none⟩)).2 = Settle.rejected ⟨"boom", none⟩ ∧
    Event.procExit 1 ∉ (bootstrapPromise (Except.error ⟨"boom", none⟩)).1 := by
  refine ⟨(c9_bootstrapPromise_settlement (Except.ok none)).1 none rfl, ?_, ?_⟩
  · exact ((c9_bootstrapPromise_settlement (Except.error ⟨"boom", none⟩)).2
      ⟨"boom", none⟩ rfl).1
  · exact ((c9_bootstrapPromise_settlement (Except.error ⟨"boom", none⟩)).2
      ⟨"boom", none⟩ rfl).2 1

/-- C10: for every options record whose `shouldExitOnError` field is
absent (reads as `undefined`), the constructor's `!== null` guard passes
and the controller's `shouldExitOnError` — initialized to `true` — is
overwritten with `undefined`, which is falsy, so exit-on-error is
disabled despite the documented default of `true`. -/
theorem c10_ctor_undefined_disables_exit (options : BootstrapOptions)
    (h : options.shouldExitOnError = OptField.undefined) :
    Bootstrap.initial.shouldExitOnError = JsBool.val true ∧
    (Bootstrap.construct options).shouldExitOnError = JsBool.undefined ∧
    JsBool.truthy (Bootstrap.construct options).shouldExitOnError = false := by
  obtain ⟨reg, orun, onC, onFi, td, see, eh⟩ := options
  have h2 : see = OptField.undefined := h
  subst h2
  refine ⟨rfl, ?_, ?_⟩ <;>
    rcases reg with _ | _ | f <;> rcases onC with _ | _ | f2 <;> rcases onFi with _ | _ | f3 <;>
    rcases td with _ | _ | f4 <;> rcases eh with _ | _ | g <;> rfl

theorem c10_ctor_undefined_disables_exit_witness :
    (Bootstrap.construct optsAllAbsent).shouldExitOnError = JsBool.undefined :=
  (c10_ctor_undefined_disables_exit optsAllAbsent rfl).2.1

end TsAsyncBootstrap
